import Mathlib

/-
Verification of the subway-display control script (app/subway.py).
The Python source is shallowly embedded below: configuration constants,
the clock gate (active-window and restart tests), the arrival fetcher
(get_train), the text scroller (scroll), the time-formatting rule, the
scene graph held in the displayio master group, and the reset phase of
the main loop, modelled as a step function on an explicit state.
-/

namespace Subway

/-! ## 1. User parameters (section 1 of the script) -/

def VERBOSE : Bool := false

def SHOW_ALERT : Bool := true

def SHOW_LIVE : Bool := true

def ON_HOUR : Nat := 12

def OFF_HOUR : Nat := 3

def RESTART_HOUR : Nat := 4

def LIVE_ICON_LATENCY : Nat := 6

/-- Embeds the RESTART_HOUR_PREV computation: 23 when RESTART_HOUR is 0,
otherwise RESTART_HOUR - 1. -/
def RESTART_HOUR_PREV : Nat := if RESTART_HOUR = 0 then 23 else RESTART_HOUR - 1

def MTA_STOP_URL_DIRECTIONS : List String :=
  ["downtown and brooklyn", "downtown", "brooklyn"]

/-! ## 2. Clock gate: active-window test (main loop lines 300-305)

The script sets active = True and then clears it when the hour lies in
the off window; the two branches correspond to a plain window
(ON_HOUR < OFF_HOUR) and a window wrapping midnight. -/

/-- Embeds the active-window test of the main loop, with the two
configured hours as parameters: when onH < offH the flag is cleared for
hour < onH or offH <= hour; otherwise it is cleared for
onH > hour and hour >= offH. -/
def activeWindow (onH offH hour : Nat) : Bool :=
  if onH < offH then
    if hour < onH ∨ offH ≤ hour then false else true
  else
    if hour < onH ∧ offH ≤ hour then false else true

/-- The active-window test at the configured constants. -/
def activeAt (hour : Nat) : Bool := activeWindow ON_HOUR OFF_HOUR hour

/-! ## 3. Scroll animator (function scroll, lines 138-146)

The label group x coordinate is the scroll offset; each call moves it
left by one pixel and, once it has moved past -(6 * text length), resets
it to 0 and reports completion. -/

/-- Embeds one call of scroll: decrement the offset; if the new offset is
less than -(6 * text length) reset it to 0 and return true, else keep
the decremented offset and return false. -/
def scrollStep (x : Int) (len : Nat) : Int × Bool :=
  let x1 := x - 1
  if x1 < -(6 * (len : Int)) then (0, true) else (x1, false)

/-- Offset after n calls of scroll starting from offset 0. -/
def scrollOffset (len : Nat) : Nat → Int
  | 0 => 0
  | n + 1 => (scrollStep (scrollOffset len n) len).1

/-- Result reported by call number n+1 of scroll (starting from offset 0). -/
def scrollFires (len n : Nat) : Bool := (scrollStep (scrollOffset len n) len).2

/-! ## 4. Time formatting (main loop lines 330-332) -/

/-- Embeds the join of decimal renderings with a comma separator. -/
def formatJoin (ts : List Nat) : String :=
  String.intercalate "," (ts.map Nat.repr)

/-- Embeds the formatted_times computation: join the first three times;
if the result is longer than 6 characters, join only the first two. -/
def formatTimes (ts : List Nat) : String :=
  if (formatJoin (ts.take 3)).length > 6 then formatJoin (ts.take 2)
  else formatJoin (ts.take 3)

/-! ## 5. Arrival fetcher (function get_train, lines 93-134)

Network transport and JSON parsing are external collaborators; the two
HTTP responses enter the model as already-parsed optional values, with
none standing for a transport or parse failure (the surrounding
try/except turns any such failure into the all-None result). -/

/-- Raw arrival entry as read from the stop response. -/
structure RawTrain where
  headsign : String
  routeId : String
  destName : String
  departureTime : Int
deriving DecidableEq

/-- Endpoints get_train can issue requests to. -/
inductive Endpoint where
  | stopUrl
  | routeUrl
deriving DecidableEq

/-- Result of get_train: the four returned values plus the list of
network requests issued during the call. -/
structure FetchResult where
  times : Option (List Nat)
  symbol : Option String
  destination : Option String
  alert : Option Bool
  requests : List Endpoint
deriving DecidableEq

/-- Embeds Python str.lower(): lowercase every character.  This is the
function String.toLower computes, written as a structural map over the
character list so that it evaluates inside the kernel. -/
def strLower (s : String) : String := ⟨s.data.map Char.toLower⟩

/-- Embeds the direction filter: the lowercased headsign must be one of
the configured direction strings. -/
def matchesDir (tr : RawTrain) : Bool :=
  MTA_STOP_URL_DIRECTIONS.contains (strLower tr.headsign)

/-- Embeds the scan loop of get_train: matching entries are appended to
the accumulator and the loop breaks as soon as three have been
collected (the break test runs after every entry). -/
def collectTargets : List RawTrain → List RawTrain → List RawTrain
  | [], acc => acc
  | tr :: rest, acc =>
    let acc1 := if matchesDir tr then acc ++ [tr] else acc
    if 3 ≤ acc1.length then acc1 else collectTargets rest acc1

/-- Embeds max(0, int(remaining_time / 60)): minutes remaining, truncated
toward zero and clamped at 0 (Int.toNat clamps negatives to 0, matching
max(0, .) applied after truncating division). -/
def minutesLeft (currentTime departureTime : Int) : Nat :=
  (Int.tdiv (departureTime - currentTime) 60).toNat

/-- Embeds get_train. The current_time argument is falsy in Python both
when it is None and when it is the integer 0; in either case the
function returns the all-None result without touching the network.
Otherwise it issues the stop request, filters and truncates the arrival
list, reads symbol and destination off the first match (an empty match
list raises IndexError, caught as the all-None result), then issues the
route request for the alert flag. -/
def getTrain (currentTime : Option Int) (stopResp : Option (List RawTrain))
    (routeResp : Option Nat) : FetchResult :=
  match currentTime with
  | none => ⟨none, none, none, none, []⟩
  | some t =>
    if t = 0 then ⟨none, none, none, none, []⟩
    else
      match stopResp with
      | none => ⟨none, none, none, none, [Endpoint.stopUrl]⟩
      | some trains =>
        let targets := collectTargets trains []
        match targets with
        | [] => ⟨none, none, none, none, [Endpoint.stopUrl]⟩
        | first :: _ =>
          let times := targets.map fun tr => minutesLeft t tr.departureTime
          match routeResp with
          | none => ⟨none, none, none, none, [Endpoint.stopUrl, Endpoint.routeUrl]⟩
          | some n =>
            ⟨some times, some first.routeId, some first.destName,
              some (decide (0 < n)), [Endpoint.stopUrl, Endpoint.routeUrl]⟩

/-! ## 6. Scene graph (the displayio master group, lines 199-273)

The master group is an ordered list of visual slots.  Slot identity is
the constructor; the mutable content (text, icon state) is its
argument.  The script mutates the list only through pop(i)/insert(i, x)
pairs and the single optional alert position 11. -/

/-- Visual slots of the master group, in their construction order. -/
inductive Slot where
  | topText (s : String)
  | bottomText (s : String)
  | borderLeft
  | borderRight
  | routeCircle (n : Nat)
  | routeLabel (n : Nat)
  | liveIcon (lit : Bool)
  | alertIcon
deriving DecidableEq

/-- Embeds Python list.insert(i, x): insert before index i, appending
when i is at or past the end. -/
def pyInsert {α : Type} : List α → Nat → α → List α
  | l, 0, a => a :: l
  | [], _ + 1, a => [a]
  | x :: xs, n + 1, a => x :: pyInsert xs n a

/-- The master group as built at startup (SHOW_LIVE is true, so the
live-on icon is appended), with the two text labels, an optional alert
icon at position 11, and variable text/icon content. -/
def baseScene (top bottom : String) (liveOn : Bool) (alert : Bool) : List Slot :=
  [Slot.topText top, Slot.bottomText bottom,
   Slot.borderLeft, Slot.borderRight,
   Slot.routeCircle 1, Slot.routeCircle 2, Slot.routeCircle 3, Slot.routeCircle 4,
   Slot.routeLabel 1, Slot.routeLabel 2,
   Slot.liveIcon liveOn] ++ (if alert then [Slot.alertIcon] else [])

/-- Embeds the live-branch scene mutation (lines 356-379): replace the
two text labels at positions 0 and 1 by pop/insert, then, as SHOW_ALERT
is configured, pop position 11 when the group already has 12 elements
and re-insert the alert icon there when the alert flag is set. -/
def liveSceneUpdate (g : List Slot) (dest timesStr : String) (alert : Bool) :
    List Slot :=
  let g1 := pyInsert (g.eraseIdx 0) 0 (Slot.topText dest)
  let g2 := pyInsert (g1.eraseIdx 1) 1 (Slot.bottomText timesStr)
  if SHOW_ALERT then
    if alert then
      let g3 := if 12 ≤ g2.length then g2.eraseIdx 11 else g2
      pyInsert g3 11 Slot.alertIcon
    else
      if 12 ≤ g2.length then g2.eraseIdx 11 else g2
  else g2

/-- Embeds the non-live-branch scene mutation (lines 381-385): as
SHOW_LIVE is configured, replace position 10 with the solid live-on
icon. -/
def nonLiveSceneUpdate (g : List Slot) : List Slot :=
  if SHOW_LIVE then pyInsert (g.eraseIdx 10) 10 (Slot.liveIcon true) else g

/-- Embeds the animating-phase blink mutation (lines 396-403): on tick
counter multiples of twice LIVE_ICON_LATENCY replace position 10 with
the off icon, on other multiples of LIVE_ICON_LATENCY with the on
icon, otherwise leave the group alone. -/
def blinkUpdate (g : List Slot) (i : Nat) : List Slot :=
  if i % (LIVE_ICON_LATENCY * 2) = 0 then
    pyInsert (g.eraseIdx 10) 10 (Slot.liveIcon false)
  else if i % LIVE_ICON_LATENCY = 0 then
    pyInsert (g.eraseIdx 10) 10 (Slot.liveIcon true)
  else g

/-! ## 7. Main loop, reset phase (lines 276-419)

State persisted across reset cycles, the per-cycle external inputs, and
the reset phase as a step function.  The outcome records which branch
the cycle leaves through: terminal (restart break), idle (inactive
window: blank, sleep, continue), animating (setup complete) or retry
(setup never completed: sleep 5 and reset again), plus the observable
display effects of the cycle. -/

/-- Loop state persisted across reset cycles: the setup flag, the
previous_hour variable, the master group, and the live flag of the most
recent completed reset. -/
structure LoopState where
  setup : Bool
  previousHour : Nat
  scene : List Slot
  live : Bool
deriving DecidableEq

/-- External inputs of one reset cycle: the clock fetch result
(current epoch time and hour, or none on failure), the free-memory
probe, and the two parsed MTA responses (none on transport or parse
failure). -/
structure CycleInput where
  clock : Option (Int × Nat)
  memFree : Nat
  stopResp : Option (List RawTrain)
  routeResp : Option Nat

/-- Branch through which a reset cycle leaves. -/
inductive Phase where
  | terminal
  | idle
  | animating
  | retry
deriving DecidableEq

/-- Observable outcome of one reset cycle. -/
structure ResetOutcome where
  state : LoopState
  phase : Phase
  blanked : Bool
  displayedMaster : Bool
  fetchCalled : Bool
  requests : List Endpoint
deriving DecidableEq

/-- Embeds the truthiness test of line 328: times is a non-empty list,
symbol and destination are non-empty strings, and alert is a bool. -/
def liveDataOk (fr : FetchResult) : Bool :=
  (match fr.times with | some ts => !ts.isEmpty | none => false) &&
  (match fr.symbol with | some s => s != "" | none => false) &&
  (match fr.destination with | some d => d != "" | none => false) &&
  fr.alert.isSome

/-- Embeds the tail of the reset phase, from the get_train call (line
326) to the root-group assignment (line 388): run the fetch, downgrade
live on bad data, mutate the scene through the live or non-live branch,
and leave toward animating or retry according to the setup flag. -/
def fetchPhase (s : LoopState) (prevHour1 : Nat) (liveIn : Bool)
    (currentTime : Option Int) (inp : CycleInput) : ResetOutcome :=
  let fr := getTrain currentTime inp.stopResp inp.routeResp
  let live := liveIn && liveDataOk fr
  if live then
    let ts := fr.times.getD []
    let dest := fr.destination.getD ""
    let alert := fr.alert.getD false
    let scene1 := liveSceneUpdate s.scene dest (formatTimes ts) alert
    ⟨⟨true, prevHour1, scene1, true⟩, Phase.animating, false, true, true, fr.requests⟩
  else
    let scene1 := nonLiveSceneUpdate s.scene
    ⟨⟨s.setup, prevHour1, scene1, false⟩,
      if s.setup then Phase.animating else Phase.retry,
      false, true, true, fr.requests⟩

/-- Embeds one reset cycle (lines 282-388).  The clock result is valid
when present with a non-zero (truthy) epoch time; the restart test and
the active-window test run only then, and previous_hour is updated only
on the valid-and-active path, just before the fetch.  A falsy or
missing clock clears the live flag and still falls through to the
fetch call with the falsy current_time. -/
def resetStep (s : LoopState) (inp : CycleInput) : ResetOutcome :=
  match inp.clock with
  | some (t, h) =>
    if t ≠ 0 then
      if (s.previousHour = RESTART_HOUR_PREV ∧ h = RESTART_HOUR) ∨ inp.memFree < 1000 then
        ⟨⟨s.setup, s.previousHour, s.scene, true⟩, Phase.terminal, true, false, false, []⟩
      else if activeAt h then
        fetchPhase s h true (some t) inp
      else
        ⟨⟨s.setup, s.previousHour, s.scene, true⟩, Phase.idle, true, false, false, []⟩
    else
      fetchPhase s s.previousHour false (some t) inp
  | none => fetchPhase s s.previousHour false none inp

/-- Initial loop state (lines 277-279 and the startup scene): setup
false, previous_hour = RESTART_HOUR, empty placeholder labels, live-on
icon, no alert icon. -/
def initState : LoopState :=
  ⟨false, RESTART_HOUR, baseScene "" "" true false, true⟩

/-- Runs successive reset cycles over a list of inputs, stopping when a
cycle leaves through the terminal branch; the flag reports whether the
run terminated. -/
def runCycles : LoopState → List CycleInput → LoopState × Bool
  | s, [] => (s, false)
  | s, inp :: rest =>
    let o := resetStep s inp
    if o.phase = Phase.terminal then (o.state, true) else runCycles o.state rest

/-- Helper read on the inputs: the clock is valid (present with truthy
epoch time). -/
def clockValid (inp : CycleInput) : Bool :=
  match inp.clock with
  | some (t, _) => t != 0
  | none => false

/-- Helper read on the inputs: the reported hour (0 when absent). -/
def clockHour (inp : CycleInput) : Nat :=
  match inp.clock with
  | some (_, h) => h
  | none => 0

/-- Helper: the restart condition of line 295. -/
def restartHits (s : LoopState) (inp : CycleInput) : Bool :=
  (decide (s.previousHour = RESTART_HOUR_PREV) && decide (clockHour inp = RESTART_HOUR))
    || decide (inp.memFree < 1000)

/-! ## 8. Concrete inputs used by closed theorems -/

/-- A cycle input whose clock fetch failed. -/
def inpNoClock : CycleInput := ⟨none, 100000, none, none⟩

/-- A cycle input with a valid clock in the active window whose stop
fetch failed at the transport. -/
def inpFetchFail : CycleInput := ⟨some (1000, 13), 100000, none, none⟩

/-- One reset cycle per hour for a full day starting and ending at the
restart hour, every cycle with a valid clock and ample free memory. -/
def hoursSeq : List Nat :=
  [4, 5, 6, 7, 8, 9, 10, 11, 12, 13, 14, 15, 16, 17, 18, 19, 20, 21, 22, 23,
   0, 1, 2, 3, 4]

/-- Builds the full-day cycle input at a given hour. -/
def mkDayInput (h : Nat) : CycleInput := ⟨some (1000, h), 100000, none, none⟩

/-- The full-day input trace. -/
def dayInputs : List CycleInput := hoursSeq.map mkDayInput

/-- A single raw arrival heading downtown. -/
def demoTrains : List RawTrain := [⟨"Downtown", "Q", "Coney Island", 1300⟩]

/-! ## Theorems -/

/-- Claim C1: for every hour, when on_hour < off_hour the gate
classifies the cycle Active iff on_hour <= hour < off_hour, and when
the window wraps midnight (on_hour > off_hour) it classifies Active iff
hour >= on_hour or hour < off_hour. -/
theorem activeWindow_spec (onH offH h : Nat) :
    (onH < offH → (activeWindow onH offH h = true ↔ (onH ≤ h ∧ h < offH))) ∧
    (offH < onH → (activeWindow onH offH h = true ↔ (onH ≤ h ∨ h < offH))) := by
  constructor
  · intro hlt
    unfold activeWindow
    rw [if_pos hlt]
    by_cases hc : h < onH ∨ offH ≤ h
    · rw [if_pos hc]
      simp only [Bool.false_eq_true, false_iff]
      omega
    · rw [if_neg hc]
      simp only [true_iff]
      omega
  · intro hgt
    unfold activeWindow
    rw [if_neg (by omega)]
    by_cases hc : h < onH ∧ offH ≤ h
    · rw [if_pos hc]
      simp only [Bool.false_eq_true, false_iff]
      omega
    · rw [if_neg hc]
      simp only [true_iff]
      omega

/-- Witness for C1: hour 13 is active in the configured wrap-around
window (12, 3). -/
theorem activeWindow_spec_witness : activeWindow 12 3 13 = true :=
  ((activeWindow_spec 12 3 13).2 (by decide)).mpr (Or.inl (by decide))

/-- Claim C4: at most the first 3 times are joined by the separator;
if that string exceeds 6 characters the first 2 times are joined
instead; [3,7,15] renders "3,7,15" and [3,17,25] renders "3,17". -/
theorem formatTimes_spec :
    (∀ ts : List Nat,
      (formatTimes ts = formatJoin (ts.take 3) ∧ (formatJoin (ts.take 3)).length ≤ 6) ∨
      (formatTimes ts = formatJoin (ts.take 2) ∧ 6 < (formatJoin (ts.take 3)).length)) ∧
    formatTimes [3, 7, 15] = "3,7,15" ∧ formatTimes [3, 17, 25] = "3,17" := by
  refine ⟨fun ts => ?_, by decide, by decide⟩
  by_cases hc : 6 < (formatJoin (ts.take 3)).length
  · right
    refine ⟨?_, hc⟩
    unfold formatTimes
    rw [if_pos hc]
  · left
    refine ⟨?_, by omega⟩
    unfold formatTimes
    rw [if_neg hc]

/-- Claim C10: a call of get_train with an absent current time,
including an epoch time equal to 0, returns the all-absent result and
issues no network request. -/
theorem getTrain_no_time_no_request (ct : Option Int)
    (stopResp : Option (List RawTrain)) (routeResp : Option Nat)
    (h : ct = none ∨ ct = some 0) :
    getTrain ct stopResp routeResp = ⟨none, none, none, none, []⟩ := by
  rcases h with h | h <;> subst h <;> simp [getTrain]

/-- Witness for C10 at current time 0. -/
theorem getTrain_no_time_no_request_witness :
    getTrain (some 0) (some []) (some 5) = ⟨none, none, none, none, []⟩ :=
  getTrain_no_time_no_request (some 0) (some []) (some 5) (Or.inr rfl)

/-- Claim C5: on a missing clock sample the cycle is forced non-live,
the arrival fetcher is still called, the display is not blanked, and
the master scene is still pushed to the display. -/
theorem missing_clock_best_effort (s : LoopState) (inp : CycleInput)
    (h : inp.clock = none) :
    (resetStep s inp).state.live = false ∧
    (resetStep s inp).fetchCalled = true ∧
    (resetStep s inp).blanked = false ∧
    (resetStep s inp).displayedMaster = true := by
  simp [resetStep, h, fetchPhase]

/-- Witness for C5 at a concrete failed-clock input. -/
theorem missing_clock_best_effort_witness :
    (resetStep initState inpNoClock).state.live = false ∧
    (resetStep initState inpNoClock).fetchCalled = true ∧
    (resetStep initState inpNoClock).blanked = false ∧
    (resetStep initState inpNoClock).displayedMaster = true :=
  missing_clock_best_effort initState inpNoClock rfl

/-- Helper for C3: starting from offset 0, the offset after n calls is
minus the remainder of n modulo the cycle period 6 * len + 1. -/
theorem scrollOffset_mod (len n : Nat) :
    scrollOffset len n = -((n % (6 * len + 1) : Nat) : Int) := by
  induction n with
  | zero => simp [scrollOffset]
  | succ n ih =>
    have hlt : n % (6 * len + 1) < 6 * len + 1 := Nat.mod_lt _ (by omega)
    simp only [scrollOffset]
    rw [ih]
    by_cases hc : n % (6 * len + 1) = 6 * len
    · have h1 : (n + 1) % (6 * len + 1) = 0 := by
        rw [Nat.add_mod, hc]
        rcases Nat.eq_zero_or_pos len with hl | hl
        · subst hl; simp
        · rw [Nat.mod_eq_of_lt (show 1 < 6 * len + 1 by omega)]
          exact Nat.mod_self _
      rw [h1, hc]
      simp only [scrollStep]
      split
      · simp
      · rename_i hcond
        exfalso
        push_cast at hcond
        omega
    · have hklt : n % (6 * len + 1) < 6 * len := by omega
      have h1 : (n + 1) % (6 * len + 1) = n % (6 * len + 1) + 1 := by
        rw [Nat.add_mod]
        rw [Nat.mod_eq_of_lt (show 1 < 6 * len + 1 by omega)]
        exact Nat.mod_eq_of_lt (by omega)
      rw [h1]
      generalize n % (6 * len + 1) = k at hklt ⊢
      simp only [scrollStep]
      split
      · rename_i hcond
        exfalso
        omega
      · push_cast
        ring

/-- Claim C3: every call moves the offset one unit left; the cycle
completes exactly when the offset passes -(6 * text length), resetting
to 0; starting from 0, call number n+1 returns true exactly when
n mod (6 * len + 1) = 6 * len, hence exactly once per full traversal. -/
theorem scroll_cycle_spec (len n : Nat) :
    scrollOffset len n = -((n % (6 * len + 1) : Nat) : Int) ∧
    scrollFires len n = decide (n % (6 * len + 1) = 6 * len) := by
  refine ⟨scrollOffset_mod len n, ?_⟩
  have hlt : n % (6 * len + 1) < 6 * len + 1 := Nat.mod_lt _ (by omega)
  unfold scrollFires
  rw [scrollOffset_mod len n]
  generalize n % (6 * len + 1) = k at hlt ⊢
  simp only [scrollStep]
  split
  · rename_i hcond
    have hk : k = 6 * len := by omega
    simp [hk]
  · rename_i hcond
    have hk : k ≠ 6 * len := by omega
    simp [hk]

/-- Claim C7: a live update inserts or removes the alert slot at its
single position and replaces text content in place; applying an update
with the alert active and then one with it inactive leaves the alert
slot absent and every other slot identity, index and order unchanged,
and the non-live and blink mutations also preserve the slot layout. -/
theorem alert_toggle_roundtrip :
    (∀ top bottom liveOn a d1 t1 d2 t2,
      liveSceneUpdate (liveSceneUpdate (baseScene top bottom liveOn a) d1 t1 true) d2 t2 false
        = baseScene d2 t2 liveOn false) ∧
    (∀ top bottom liveOn a d t al,
      liveSceneUpdate (baseScene top bottom liveOn a) d t al = baseScene d t liveOn al) ∧
    (∀ top bottom liveOn a,
      nonLiveSceneUpdate (baseScene top bottom liveOn a) = baseScene top bottom true a) ∧
    (∀ top bottom liveOn a i, ∃ b,
      blinkUpdate (baseScene top bottom liveOn a) i = baseScene top bottom b a) := by
  have hup : ∀ top bottom liveOn a d t al,
      liveSceneUpdate (baseScene top bottom liveOn a) d t al = baseScene d t liveOn al := by
    intro top bottom liveOn a d t al
    cases a <;> cases al <;> rfl
  refine ⟨?_, hup, ?_, ?_⟩
  · intro top bottom liveOn a d1 t1 d2 t2
    rw [hup, hup]
  · intro top bottom liveOn a
    cases a <;> rfl
  · intro top bottom liveOn a i
    unfold blinkUpdate
    by_cases h1 : i % (LIVE_ICON_LATENCY * 2) = 0
    · exact ⟨false, by rw [if_pos h1]; cases a <;> rfl⟩
    · by_cases h2 : i % LIVE_ICON_LATENCY = 0
      · exact ⟨true, by rw [if_neg h1, if_pos h2]; cases a <;> rfl⟩
      · exact ⟨liveOn, by rw [if_neg h1, if_neg h2]⟩

/-- Helper for C8: the scan loop of get_train collects, in order, the
first matches of the direction filter up to the remaining capacity of
the accumulator. -/
theorem collectTargets_eq (trains : List RawTrain) :
    ∀ acc : List RawTrain, acc.length < 3 →
      collectTargets trains acc =
        acc ++ (trains.filter matchesDir).take (3 - acc.length) := by
  induction trains with
  | nil => intro acc h; simp [collectTargets]
  | cons tr rest ih =>
    intro acc h
    simp only [collectTargets]
    by_cases hm : matchesDir tr = true
    · rw [if_pos hm]
      by_cases h3 : 3 ≤ (acc ++ [tr]).length
      · rw [if_pos h3]
        have h2 : acc.length = 2 := by
          simp only [List.length_append, List.length_cons, List.length_nil] at h3
          omega
        simp [List.filter_cons, hm, h2]
      · rw [if_neg h3]
        have hlen : (acc ++ [tr]).length < 3 := by omega
        rw [ih (acc ++ [tr]) hlen]
        have hstep : 3 - acc.length = (3 - (acc ++ [tr]).length) + 1 := by
          simp only [List.length_append, List.length_cons, List.length_nil] at h3 ⊢
          omega
        simp [List.filter_cons, hm, hstep, List.take_succ_cons]
    · rw [if_neg hm]
      rw [if_neg (by omega)]
      rw [ih acc h]
      simp [List.filter_cons, hm]

/-- Claim C8: on the success path, get_train keeps, in server order, the
entries whose lowercased direction label is one of the configured
accepted strings, stopping at 3 matches, and each kept remaining time
is the departure epoch minus the current time, truncated to whole
minutes and floored at 0. -/
theorem selection_spec (t : Int) (ht : ¬t = 0) (trains : List RawTrain)
    (nAlerts : Nat) :
    ((trains.filter matchesDir).take 3 ≠ [] →
      (getTrain (some t) (some trains) (some nAlerts)).times =
        some (((trains.filter matchesDir).take 3).map
          fun tr => minutesLeft t tr.departureTime)) ∧
    (∀ dep : Int, (minutesLeft t dep : Int) = max 0 (Int.tdiv (dep - t) 60)) := by
  constructor
  · intro hne
    have hcoll : collectTargets trains [] = (trains.filter matchesDir).take 3 := by
      simpa using collectTargets_eq trains [] (by simp)
    obtain ⟨first, restL, hL⟩ :
        ∃ f r, (trains.filter matchesDir).take 3 = f :: r := by
      cases hx : (trains.filter matchesDir).take 3 with
      | nil => exact absurd hx hne
      | cons f r => exact ⟨f, r, rfl⟩
    simp only [getTrain]
    rw [if_neg ht, hcoll, hL]
  · intro dep
    unfold minutesLeft
    rcases le_or_lt 0 (Int.tdiv (dep - t) 60) with hd | hd
    · rw [Int.toNat_of_nonneg hd, max_eq_right hd]
    · rw [Int.toNat_of_nonpos (le_of_lt hd), max_eq_left (le_of_lt hd)]
      simp

/-- Witness for C8 at a single matching downtown arrival five minutes
out. -/
theorem selection_spec_witness :
    (getTrain (some 1000) (some demoTrains) (some 0)).times =
      some (((demoTrains.filter matchesDir).take 3).map
        fun tr => minutesLeft 1000 tr.departureTime) :=
  (selection_spec 1000 (by decide) demoTrains 0).1 (by decide)

/-- Claim C9: previous_hour starts at the restart hour and is updated by
a reset cycle exactly when the cycle obtained a valid clock sample, did
not fire the restart verdict, and was classified active; inactive
cycles and failed clock fetches leave it untouched. -/
theorem previousHour_update_spec :
    initState.previousHour = RESTART_HOUR ∧
    ∀ (s : LoopState) (inp : CycleInput),
      (resetStep s inp).state.previousHour =
        if (clockValid inp && !restartHits s inp && activeAt (clockHour inp)) = true
        then clockHour inp else s.previousHour := by
  refine ⟨rfl, ?_⟩
  intro s inp
  rcases hc : inp.clock with _ | ⟨t, h⟩
  · simp [resetStep, hc, fetchPhase, clockValid, apply_ite]
  · by_cases ht : t = 0
    · subst ht
      simp [resetStep, hc, fetchPhase, clockValid, apply_ite]
    · by_cases hr : (s.previousHour = RESTART_HOUR_PREV ∧ h = RESTART_HOUR) ∨
          inp.memFree < 1000
      · have hrb : restartHits s inp = true := by
          rcases hr with ⟨h1, h2⟩ | h3
          · simp [restartHits, clockHour, hc, h1, h2]
          · simp [restartHits, h3]
        simp [resetStep, hc, ht, hr, hrb]
      · have hrb : restartHits s inp = false := by
          simp only [restartHits, clockHour, hc, Bool.or_eq_false_iff,
            Bool.and_eq_false_iff, decide_eq_false_iff_not]
          constructor
          · by_cases h1 : s.previousHour = RESTART_HOUR_PREV
            · right
              intro h2
              exact hr (Or.inl ⟨h1, h2⟩)
            · left
              simpa using h1
          · intro h3
            exact hr (Or.inr h3)
        by_cases ha : activeAt h = true
        · simp [resetStep, hc, ht, hr, ha, fetchPhase, clockValid, clockHour, hrb,
            apply_ite]
        · simp [resetStep, hc, ht, hr, ha, clockValid, clockHour, hrb]

/-- Claim C2, failing run: with the shipped configuration the scheduled
restart never fires.  Hour 3 lies in the inactive window, so
previous_hour is never set to 3 and the boundary test at hour 4 never
passes: a full day of hourly reset cycles with a valid clock and ample
memory, starting and ending at the restart hour, never leaves through
the terminal branch, and previous_hour ends at the last active hour 2
rather than 3. -/
theorem restart_never_fires_full_day :
    (runCycles initState dayInputs).2 = false ∧
    (runCycles initState dayInputs).1.previousHour = 2 := by decide

/-- Helper for C6: a reset cycle whose fetch step ends non-live leaves
toward animating when setup was already complete and toward the retry
branch otherwise, never blanking and never terminating. -/
theorem fetchPhase_not_live (s : LoopState) (prevHour1 : Nat) (liveIn : Bool)
    (ct : Option Int) (inp : CycleInput)
    (h : (fetchPhase s prevHour1 liveIn ct inp).state.live = false) :
    (fetchPhase s prevHour1 liveIn ct inp).phase =
      (if s.setup then Phase.animating else Phase.retry) ∧
    (fetchPhase s prevHour1 liveIn ct inp).phase ≠ Phase.terminal ∧
    (fetchPhase s prevHour1 liveIn ct inp).blanked = false := by
  simp only [fetchPhase] at h ⊢
  by_cases hl : (liveIn && liveDataOk (getTrain ct inp.stopResp inp.routeResp)) = true
  · rw [if_pos hl] at h
    exact absurd h (by simp)
  · rw [if_neg hl] at h ⊢
    refine ⟨rfl, ?_, rfl⟩
    cases hs : s.setup <;> simp

/-- Claim C6, amended: when the reset cycle ends non-live, the loop
continues without blanking or terminating; it proceeds to the
animating phase when setup completed in some earlier cycle, and
otherwise to the retry wait that re-enters the reset phase. -/
theorem fetch_failure_phase (s : LoopState) (inp : CycleInput)
    (h : (resetStep s inp).state.live = false) :
    (resetStep s inp).phase = (if s.setup then Phase.animating else Phase.retry) ∧
    (resetStep s inp).phase ≠ Phase.terminal ∧
    (resetStep s inp).blanked = false := by
  rcases hc : inp.clock with _ | ⟨t, hh⟩
  · simp only [resetStep, hc] at h ⊢
    exact fetchPhase_not_live s s.previousHour false none inp h
  · by_cases ht : t = 0
    · subst ht
      simp [resetStep, hc] at h ⊢
      exact fetchPhase_not_live s s.previousHour false (some 0) inp h
    · by_cases hr : (s.previousHour = RESTART_HOUR_PREV ∧ hh = RESTART_HOUR) ∨
          inp.memFree < 1000
      · simp [resetStep, hc, ht, hr] at h
      · by_cases ha : activeAt hh = true
        · simp [resetStep, hc, ht, hr, ha] at h ⊢
          exact fetchPhase_not_live s hh true (some t) inp h
        · simp [resetStep, hc, ht, hr, ha] at h

/-- Counterexample to C6 as stated: on the very first cycle, a fetch
failure leaves through the retry branch, not the animating phase. -/
theorem fetch_failure_not_animating :
    (resetStep initState inpFetchFail).state.live = false ∧
    (resetStep initState inpFetchFail).phase = Phase.retry ∧
    (resetStep initState inpFetchFail).phase ≠ Phase.animating := by decide

/-- Witness for the amended C6 at the same concrete failing fetch. -/
theorem fetch_failure_phase_witness :
    (resetStep initState inpFetchFail).phase =
      (if initState.setup then Phase.animating else Phase.retry) ∧
    (resetStep initState inpFetchFail).phase ≠ Phase.terminal ∧
    (resetStep initState inpFetchFail).blanked = false :=
  fetch_failure_phase initState inpFetchFail (by decide)

end Subway
